import Mathlib

/-!
Verification of the registration-intake and deduplication workflow of the
HIET tech-fest event-registration backend (Express + Mongoose server).

The embedding follows the memory-storage server variant (the backend file
using `multer.memoryStorage()` and SHA-256 hashing) together with the
disk-backed `server.js` variant where the two differ; the differences that
matter here are the mobile-number validator (`isMobilePhone` with locale
en-IN versus an explicit regular-expression match) — both validators are
embedded below.

The MongoDB collection is modelled as a list of records; `findOne` becomes
`List.find?`, the unique indexes declared on the schema become an explicit
check performed at insertion time (modelling the E11000 duplicate-key error
raised by the store), and `registration.save()` after flipping
`isConfirmed` becomes an in-place update of the found record.
-/

/-- A stored registration document, after the fields of the Mongoose
`registrationSchema`: all identity fields, the team fields, the two
document-content digests, the creation timestamp and the confirmation
flag.  `teamSize` is stored as a number (`Number(teamSize)` in the
handler); `createdAt` is the insertion-time clock value. -/
structure Registration where
  registrationId : String
  event : String
  teamName : String
  teamLeaderName : String
  email : String
  mobile : String
  gender : String
  college : String
  course : String
  year : String
  rollno : String
  aadhar : String
  teamSize : Nat
  aadharImageHash : String
  collegeIdHash : String
  createdAt : Nat
  isConfirmed : Bool
  deriving DecidableEq, Repr

/-- The record store: the MongoDB `registrations` collection as a list of
documents in insertion order. -/
abbrev Store := List Registration

/-- One multipart `POST /api/register` request: the thirteen text fields of
`req.body` plus the two uploaded files (`req.files`), each file given by
its byte content when present. -/
structure Submission where
  registrationId : String
  event : String
  teamName : String
  teamLeaderName : String
  email : String
  mobile : String
  gender : String
  college : String
  course : String
  year : String
  rollno : String
  aadhar : String
  teamSize : Nat
  aadharImageFile : Option (List Nat)
  collegeIdFile : Option (List Nat)
  deriving DecidableEq, Repr

/-- The whitespace class stripped by the JavaScript string `trim()`
sanitizer, restricted to the usual ASCII whitespace. -/
def isSpaceChar (c : Char) : Bool :=
  c == ' ' || c == '\t' || c == '\n' || c == '\r'

/-- The `trim()` sanitizer applied to the team-name fields: strip leading
and trailing whitespace. -/
def strTrim (s : String) : String :=
  String.mk (((s.data.dropWhile isSpaceChar).reverse.dropWhile isSpaceChar).reverse)

/-- The mobile validator of the memory-storage variant:
`body(mobile).matches()` against the pattern `[6-9]` followed by exactly
nine digits, anchored at both ends. -/
def matchesStrictMobile (s : String) : Bool :=
  match s.data with
  | c :: rest =>
      (c == '6' || c == '7' || c == '8' || c == '9')
        && rest.length == 9
        && rest.all (fun d => '0' ≤ d && d ≤ '9')
  | [] => false

/-- Core of the en-IN mobile pattern: a character in 6–9 followed by
exactly nine digits. -/
def enINCore (cs : List Char) : Bool :=
  match cs with
  | c :: rest =>
      (c == '6' || c == '7' || c == '8' || c == '9')
        && rest.length == 9
        && rest.all (fun d => '0' ≤ d && d ≤ '9')
  | [] => false

/-- The mobile validator of the disk-backed `server.js` variant:
`body(mobile).isMobilePhone()` with locale en-IN.  The validator library is
not part of this repository; this embeds its documented en-IN pattern, an
optional `+91`, `91` or `0` before a 6–9 digit and nine further digits. -/
def matchesEnINMobile (s : String) : Bool :=
  enINCore s.data
    || (match s.data with
        | '+' :: '9' :: '1' :: rest => enINCore rest
        | '9' :: '1' :: rest => enINCore rest
        | '0' :: rest => enINCore rest
        | _ => false)

/-- The `normalizeEmail` sanitizer applied to the email field.  The
validator library is not part of this repository; this embeds the
lowercasing its default options perform on the address. -/
def normalizeEmail (s : String) : String :=
  String.mk (s.data.map Char.toLower)

/-- The validation chain of `POST /api/register`: email format (the
library predicate is a parameter `isEmailF`), the mobile check (parameter
`mobileF`, instantiated with one of the two embedded validators), trimmed
non-emptiness of the team fields, the aadhar length check
`isLength` with both bounds 12, the team-size integer bounds 1–4, and bare
non-emptiness of the remaining text fields. -/
def validateSubmission (isEmailF mobileF : String → Bool) (s : Submission) : Bool :=
  isEmailF s.email
    && mobileF s.mobile
    && !(strTrim s.teamName == "")
    && !(strTrim s.teamLeaderName == "")
    && s.aadhar.length == 12
    && decide (1 ≤ s.teamSize)
    && decide (s.teamSize ≤ 4)
    && !(s.registrationId == "")
    && !(s.event == "")
    && !(s.gender == "")
    && !(s.college == "")
    && !(s.course == "")
    && !(s.year == "")
    && !(s.rollno == "")

/-- The document rebuilt by the handler from the sanitized body: team
fields trimmed by the `trim()` sanitizers, email normalized, the two
computed digests attached, `isConfirmed` defaulting to `false`. -/
def mkRecord (s : Submission) (hA hC : String) (now : Nat) : Registration :=
  { registrationId := s.registrationId
    event := s.event
    teamName := strTrim s.teamName
    teamLeaderName := strTrim s.teamLeaderName
    email := normalizeEmail s.email
    mobile := s.mobile
    gender := s.gender
    college := s.college
    course := s.course
    year := s.year
    rollno := s.rollno
    aadhar := s.aadhar
    teamSize := s.teamSize
    aadharImageHash := hA
    collegeIdHash := hC
    createdAt := now
    isConfirmed := false }

/-- The unique indexes declared on the schema (`registrationId`,
`teamName`, `email`, `mobile`, `aadhar`, each `unique: true`), enforced by
the store at insertion: the E11000 duplicate-key error names the first
conflicting field.  The composite `(event, teamName)` index is subsumed by
the single-field `teamName` index. -/
def uniqueViolation (db : Store) (r : Registration) : Option String :=
  if db.any (fun x => x.registrationId == r.registrationId) then some "registrationId"
  else if db.any (fun x => x.teamName == r.teamName) then some "teamName"
  else if db.any (fun x => x.email == r.email) then some "email"
  else if db.any (fun x => x.mobile == r.mobile) then some "mobile"
  else if db.any (fun x => x.aadhar == r.aadhar) then some "aadhar"
  else none

/-- The error outcomes of `POST /api/register`, following the error
taxonomy: field validation failure, missing upload, document-digest
collision, team-in-event collision, unique-index collision on a named
field, and notification-transport failure after a successful insert. -/
inductive RegisterError where
  | validationError
  | missingFiles
  | duplicateDocument
  | duplicateTeam
  | duplicateField (field : String)
  | transportError
  deriving DecidableEq, Repr

instance : DecidableEq (Except RegisterError Registration) := fun a b =>
  match a, b with
  | .error x, .error y =>
      if h : x = y then .isTrue (congrArg Except.error h)
      else .isFalse (fun hc => h (Except.error.inj hc))
  | .ok x, .ok y =>
      if h : x = y then .isTrue (congrArg Except.ok h)
      else .isFalse (fun hc => h (Except.ok.inj hc))
  | .error _, .ok _ => .isFalse (fun hc => Except.noConfusion hc)
  | .ok _, .error _ => .isFalse (fun hc => Except.noConfusion hc)

/-- The result of one `POST /api/register` request: the outcome sent to
the client, the store after the request, and whether the confirmation
email was sent. -/
structure RegResult where
  outcome : Except RegisterError Registration
  db : Store
  emailSent : Bool
  deriving Repr

/-- `POST /api/register`: run the validation chain; require both uploads;
hash each upload with the document hasher `hashFn`; `findOne` on the
candidate `aadharImageHash` against the `aadharImageHash` field and on the
candidate `collegeIdHash` against the `collegeIdHash` field, rejecting on
either hit; `findOne` on `(event, teamName)`, rejecting on a hit; then
insert, the store enforcing its unique indexes; finally send the
confirmation email (`emailOk` says whether the transport succeeds — on
failure the catch branch of the handler turns the thrown error into an error response,
after the insert). -/
def register (hashFn : List Nat → String) (isEmailF mobileF : String → Bool)
    (db : Store) (s : Submission) (emailOk : Bool) (now : Nat) : RegResult :=
  if !(validateSubmission isEmailF mobileF s) then
    ⟨.error .validationError, db, false⟩
  else
    match s.aadharImageFile, s.collegeIdFile with
    | some aBytes, some cBytes =>
        let hA := hashFn aBytes
        let hC := hashFn cBytes
        if (db.find? (fun r => r.aadharImageHash == hA)).isSome
            || (db.find? (fun r => r.collegeIdHash == hC)).isSome then
          ⟨.error .duplicateDocument, db, false⟩
        else if (db.find? (fun r => r.event == s.event && r.teamName == strTrim s.teamName)).isSome then
          ⟨.error .duplicateTeam, db, false⟩
        else
          let newRec := mkRecord s hA hC now
          match uniqueViolation db newRec with
          | some f => ⟨.error (.duplicateField f), db, false⟩
          | none =>
              if emailOk then ⟨.ok newRec, db ++ [newRec], true⟩
              else ⟨.error .transportError, db ++ [newRec], false⟩
    | _, _ => ⟨.error .missingFiles, db, false⟩

/-- The HTTP status `server.js` attaches to each outcome: 200 on success,
400 for validation, upload and duplicate errors, 500 when the confirmation
email fails after the insert (the thrown transport error reaches the
catch-all branch). -/
def httpStatus (o : Except RegisterError Registration) : Nat :=
  match o with
  | .ok _ => 200
  | .error .transportError => 500
  | .error _ => 400

/-- The outcomes of `GET /api/confirm/:registrationId`. -/
inductive ConfirmResult where
  | notFound
  | alreadyConfirmed
  | success
  deriving DecidableEq, Repr

/-- `registration.save()` after `registration.isConfirmed = true`: write
the confirmation flag back onto the found document, leaving every other
document and every other field untouched. -/
def setConfirmed (db : Store) (rid : String) : Store :=
  match db with
  | [] => []
  | r :: rest =>
      if r.registrationId == rid then { r with isConfirmed := true } :: rest
      else r :: setConfirmed rest rid

/-- `GET /api/confirm/:registrationId`: `findOne` on the id; 404 when
absent; 400 when the flag is already set; otherwise set the flag and
persist. -/
def confirm (db : Store) (rid : String) : ConfirmResult × Store :=
  match db.find? (fun r => r.registrationId == rid) with
  | none => (.notFound, db)
  | some r =>
      if r.isConfirmed then (.alreadyConfirmed, db)
      else (.success, setConfirmed db rid)

/-- One spreadsheet row of the export route: the fixed column order
Registration ID, Event, Team Name, Team Leader, Email, Mobile, Gender,
College, Course, Year, Roll No, Aadhar, Team Size. -/
def exportRow (r : Registration) : List String :=
  [r.registrationId, r.event, r.teamName, r.teamLeaderName, r.email, r.mobile,
   r.gender, r.college, r.course, r.year, r.rollno, r.aadhar, toString r.teamSize]

/-- `GET /api/export-excel`: project every stored record to a row; a pure
read of the store. -/
def exportExcel (db : Store) : List (List String) :=
  db.map exportRow

/-- Concrete document hasher used when instantiating the theorems below:
one character per byte. -/
def hashMock : List Nat → String :=
  fun b => String.mk (b.map (fun n => Char.ofNat (48 + n)))

/-- Concrete stand-in for the external email-format predicate when
instantiating the theorems below. -/
def emailStub : String → Bool := fun s => s.data.contains '@'

/-- A stored registration used to instantiate the theorems below. -/
def regAlpha : Registration :=
  { registrationId := "R1", event := "e1", teamName := "Alpha", teamLeaderName := "LA",
    email := "a@x.com", mobile := "9000000001", gender := "g", college := "c",
    course := "b", year := "1", rollno := "11", aadhar := "111111111111",
    teamSize := 1, aadharImageHash := "1", collegeIdHash := "2",
    createdAt := 0, isConfirmed := false }

/-- The conflict relation the duplicate checks and the unique indexes
detect between a candidate submission (with its two computed digests) and
a stored record: a digest hit in the corresponding hash field, the
`(event, teamName)` pair, or any of the five globally-unique fields. -/
abbrev conflictsWith (s : Submission) (hA hC : String) (x : Registration) : Prop :=
  x.aadharImageHash = hA ∨ x.collegeIdHash = hC ∨
  (x.event = s.event ∧ x.teamName = strTrim s.teamName) ∨
  x.registrationId = s.registrationId ∨ x.teamName = strTrim s.teamName ∨
  x.email = normalizeEmail s.email ∨ x.mobile = s.mobile ∨ x.aadhar = s.aadhar

/-- A submission conflicting with `regAlpha` only through its email
address, used to instantiate the theorems below. -/
def c4sub : Submission :=
  { registrationId := "R5", event := "e5", teamName := "Eps", teamLeaderName := "LE",
    email := "a@x.com", mobile := "9000000005", gender := "g", college := "c",
    course := "b", year := "1", rollno := "15", aadhar := "555555555555",
    teamSize := 1, aadharImageFile := some [7], collegeIdFile := some [8] }

/-- A fresh submission conflicting with nothing in `[regAlpha]`, used to
instantiate the theorems below. -/
def c5sub : Submission :=
  { registrationId := "R6", event := "e6", teamName := "Zeta", teamLeaderName := "LZ",
    email := "f@x.com", mobile := "9000000006", gender := "g", college := "c",
    course := "b", year := "1", rollno := "16", aadhar := "666666666666",
    teamSize := 1, aadharImageFile := some [3], collegeIdFile := some [4] }

/-- A submission reusing the team name of `regAlpha` under a different
event, used to instantiate the theorems below. -/
def c5subT : Submission :=
  { registrationId := "R7", event := "e7", teamName := "Alpha", teamLeaderName := "LT",
    email := "g@x.com", mobile := "9000000007", gender := "g", college := "c",
    course := "b", year := "1", rollno := "17", aadhar := "777777777777",
    teamSize := 1, aadharImageFile := some [5], collegeIdFile := some [6] }

/-- A first submission with document bytes `[3]` and `[4]`, used to
instantiate the theorems below. -/
def subBeta : Submission :=
  { registrationId := "R2", event := "e2", teamName := "Beta", teamLeaderName := "LB",
    email := "b@x.com", mobile := "9000000002", gender := "g", college := "c",
    course := "b", year := "1", rollno := "12", aadhar := "222222222222",
    teamSize := 2, aadharImageFile := some [3], collegeIdFile := some [4] }

/-- A second submission whose aadhar-image bytes equal those of `subBeta` while
every other field is distinct, used to instantiate the theorems below. -/
def c2sub : Submission :=
  { registrationId := "R4", event := "e4", teamName := "Delta", teamLeaderName := "LD",
    email := "d@x.com", mobile := "9000000004", gender := "g", college := "c",
    course := "b", year := "1", rollno := "14", aadhar := "444444444444",
    teamSize := 3, aadharImageFile := some [3], collegeIdFile := some [7] }

/-- A fresh submission used to instantiate the notification-failure
theorem below. -/
def c6sub : Submission :=
  { registrationId := "R8", event := "e8", teamName := "Eta", teamLeaderName := "LH",
    email := "h@x.com", mobile := "9000000008", gender := "g", college := "c",
    course := "b", year := "1", rollno := "18", aadhar := "888888888888",
    teamSize := 1, aadharImageFile := some [1], collegeIdFile := some [2] }

/-- A first submission whose email is mixed-case, used to instantiate the
email-normalization theorem below. -/
def c10sub1 : Submission :=
  { registrationId := "R11", event := "e11", teamName := "Kappa", teamLeaderName := "LK",
    email := "Alice@X.com", mobile := "9000000011", gender := "g", college := "c",
    course := "b", year := "1", rollno := "21", aadhar := "110000000011",
    teamSize := 1, aadharImageFile := some [1], collegeIdFile := some [2] }

/-- A second submission whose email differs from that of `c10sub1` only in
letter case, all other fields distinct, used to instantiate the
email-normalization theorem below. -/
def c10sub2 : Submission :=
  { registrationId := "R12", event := "e12", teamName := "Lambda", teamLeaderName := "LL",
    email := "ALICE@x.COM", mobile := "9000000012", gender := "g", college := "c",
    course := "b", year := "1", rollno := "22", aadhar := "120000000012",
    teamSize := 2, aadharImageFile := some [3], collegeIdFile := some [4] }

/-- A stored record whose collegeIdHash equals the digest of the bytes
`[5]`, while its aadharImageHash is unrelated; used to exhibit the absence
of a cross-column hash check. -/
def c1prior : Registration :=
  { registrationId := "R1", event := "e1", teamName := "Alpha", teamLeaderName := "LA",
    email := "a@x.com", mobile := "9000000001", gender := "g", college := "c",
    course := "b", year := "1", rollno := "11", aadhar := "111111111111",
    teamSize := 1, aadharImageHash := "9", collegeIdHash := "5",
    createdAt := 0, isConfirmed := false }

/-- A submission whose aadhar-image digest equals the collegeIdHash of `c1prior`
but matches no prior aadharImageHash, all other fields fresh. -/
def c1sub : Submission :=
  { registrationId := "R3", event := "e3", teamName := "Gamma", teamLeaderName := "LC",
    email := "c@x.com", mobile := "9000000003", gender := "g", college := "c",
    course := "b", year := "1", rollno := "13", aadhar := "333333333333",
    teamSize := 1, aadharImageFile := some [5], collegeIdFile := some [6] }

/-- A submission whose aadhar-image digest equals the stored
aadharImageHash, used to instantiate the same-field duplicate theorem. -/
def c1wsub : Submission :=
  { registrationId := "R13", event := "e13", teamName := "Mu", teamLeaderName := "LM",
    email := "m@x.com", mobile := "9000000013", gender := "g", college := "c",
    course := "b", year := "1", rollno := "23", aadhar := "130000000013",
    teamSize := 1, aadharImageFile := some [1], collegeIdFile := some [6] }

/-- A submission whose aadhar consists of twelve non-digit characters,
used to exhibit that the aadhar validator checks only length. -/
def c7sub : Submission :=
  { registrationId := "R9", event := "e9", teamName := "Theta", teamLeaderName := "LQ",
    email := "i@x.com", mobile := "9000000009", gender := "g", college := "c",
    course := "b", year := "1", rollno := "19", aadhar := "ABCDEFGHIJKL",
    teamSize := 1, aadharImageFile := some [1], collegeIdFile := some [2] }

/-- A submission whose mobile is a `+91`-prefixed form of a valid Indian
number, used to exhibit the behaviour of the en-IN mobile validator. -/
def c8sub : Submission :=
  { registrationId := "R10", event := "e10", teamName := "Iota", teamLeaderName := "LJ",
    email := "j@x.com", mobile := "+919876543210", gender := "g", college := "c",
    course := "b", year := "1", rollno := "20", aadhar := "101010101010",
    teamSize := 1, aadharImageFile := some [1], collegeIdFile := some [2] }

/-- Field-wise frame relation between a stored record and its successor
after an operation: unchanged, or changed only by setting the
confirmation flag. -/
def sameExceptConfirmed (a b : Registration) : Prop :=
  b = a ∨ b = { a with isConfirmed := true }

theorem register_validation_fail (hashFn : List Nat → String) (f m : String → Bool)
    (db : Store) (s : Submission) (eok : Bool) (now : Nat)
    (hv : validateSubmission f m s = false) :
    register hashFn f m db s eok now = ⟨.error .validationError, db, false⟩ := by
  simp [register, hv]

theorem register_missing_eq (hashFn : List Nat → String) (f m : String → Bool)
    (db : Store) (s : Submission) (eok : Bool) (now : Nat)
    (hmiss : s.aadharImageFile = none ∨ s.collegeIdFile = none) :
    register hashFn f m db s eok now
      = ⟨.error .validationError, db, false⟩
      ∨ register hashFn f m db s eok now = ⟨.error .missingFiles, db, false⟩ := by
  by_cases hv : validateSubmission f m s = true
  · right
    rcases hmiss with hmiss | hmiss
    · cases hc : s.collegeIdFile <;> simp [register, hv, hmiss, hc]
    · cases ha : s.aadharImageFile <;> simp [register, hv, hmiss, ha]
  · left
    simp only [Bool.not_eq_true] at hv
    exact register_validation_fail hashFn f m db s eok now hv

theorem register_dupdoc_eq (hashFn : List Nat → String) (f m : String → Bool)
    (db : Store) (s : Submission) (eok : Bool) (now : Nat) (aB cB : List Nat)
    (hv : validateSubmission f m s = true)
    (ha : s.aadharImageFile = some aB) (hc : s.collegeIdFile = some cB)
    (hd : ((db.find? (fun r => r.aadharImageHash == hashFn aB)).isSome
          || (db.find? (fun r => r.collegeIdHash == hashFn cB)).isSome) = true) :
    register hashFn f m db s eok now = ⟨.error .duplicateDocument, db, false⟩ := by
  simp [register, hv, ha, hc, hd]

theorem register_dupteam_eq (hashFn : List Nat → String) (f m : String → Bool)
    (db : Store) (s : Submission) (eok : Bool) (now : Nat) (aB cB : List Nat)
    (hv : validateSubmission f m s = true)
    (ha : s.aadharImageFile = some aB) (hc : s.collegeIdFile = some cB)
    (hfa : db.find? (fun x => x.aadharImageHash == hashFn aB) = none)
    (hfc : db.find? (fun x => x.collegeIdHash == hashFn cB) = none)
    (hft : (db.find? (fun x => x.event == s.event && x.teamName == strTrim s.teamName)).isSome = true) :
    register hashFn f m db s eok now = ⟨.error .duplicateTeam, db, false⟩ := by
  simp [register, hv, ha, hc, hfa, hfc, hft]

theorem register_success_eq (hashFn : List Nat → String) (f m : String → Bool)
    (db : Store) (s : Submission) (eok : Bool) (now : Nat) (aB cB : List Nat)
    (hv : validateSubmission f m s = true)
    (ha : s.aadharImageFile = some aB) (hc : s.collegeIdFile = some cB)
    (hfa : db.find? (fun x => x.aadharImageHash == hashFn aB) = none)
    (hfc : db.find? (fun x => x.collegeIdHash == hashFn cB) = none)
    (hft : db.find? (fun x => x.event == s.event && x.teamName == strTrim s.teamName) = none)
    (hu : uniqueViolation db (mkRecord s (hashFn aB) (hashFn cB) now) = none) :
    register hashFn f m db s eok now
      = ⟨if eok then .ok (mkRecord s (hashFn aB) (hashFn cB) now) else .error .transportError,
         db ++ [mkRecord s (hashFn aB) (hashFn cB) now], eok⟩ := by
  cases eok <;> simp [register, hv, ha, hc, hfa, hfc, hft, hu]

theorem register_dupfield_eq (hashFn : List Nat → String) (f m : String → Bool)
    (db : Store) (s : Submission) (eok : Bool) (now : Nat) (aB cB : List Nat) (fld : String)
    (hv : validateSubmission f m s = true)
    (ha : s.aadharImageFile = some aB) (hc : s.collegeIdFile = some cB)
    (hfa : db.find? (fun x => x.aadharImageHash == hashFn aB) = none)
    (hfc : db.find? (fun x => x.collegeIdHash == hashFn cB) = none)
    (hft : db.find? (fun x => x.event == s.event && x.teamName == strTrim s.teamName) = none)
    (hu : uniqueViolation db (mkRecord s (hashFn aB) (hashFn cB) now) = some fld) :
    register hashFn f m db s eok now = ⟨.error (.duplicateField fld), db, false⟩ := by
  simp [register, hv, ha, hc, hfa, hfc, hft, hu]

theorem register_ok_elim (hashFn : List Nat → String) (f m : String → Bool)
    (db : Store) (s : Submission) (eok : Bool) (now : Nat) (r : Registration)
    (h : (register hashFn f m db s eok now).outcome = .ok r) :
    validateSubmission f m s = true ∧ eok = true ∧
    ∃ aB cB, s.aadharImageFile = some aB ∧ s.collegeIdFile = some cB ∧
      r = mkRecord s (hashFn aB) (hashFn cB) now ∧
      db.find? (fun x => x.aadharImageHash == hashFn aB) = none ∧
      db.find? (fun x => x.collegeIdHash == hashFn cB) = none ∧
      db.find? (fun x => x.event == s.event && x.teamName == strTrim s.teamName) = none ∧
      uniqueViolation db (mkRecord s (hashFn aB) (hashFn cB) now) = none ∧
      (register hashFn f m db s eok now).db = db ++ [r] := by
  by_cases hv : validateSubmission f m s = true
  case neg =>
    rw [register_validation_fail hashFn f m db s eok now (by simpa using hv)] at h
    exact absurd h (by simp)
  case pos =>
  cases ha : s.aadharImageFile with
  | none =>
      rcases register_missing_eq hashFn f m db s eok now (Or.inl ha) with he | he <;>
        · rw [he] at h; exact absurd h (by simp)
  | some aB =>
  cases hc : s.collegeIdFile with
  | none =>
      rcases register_missing_eq hashFn f m db s eok now (Or.inr hc) with he | he <;>
        · rw [he] at h; exact absurd h (by simp)
  | some cB =>
  by_cases hd : ((db.find? (fun x => x.aadharImageHash == hashFn aB)).isSome
      || (db.find? (fun x => x.collegeIdHash == hashFn cB)).isSome) = true
  case pos =>
    rw [register_dupdoc_eq hashFn f m db s eok now aB cB hv ha hc hd] at h
    exact absurd h (by simp)
  case neg =>
  rw [Bool.or_eq_true, not_or, Option.not_isSome_iff_eq_none,
    Option.not_isSome_iff_eq_none] at hd
  obtain ⟨hfa, hfc⟩ := hd
  cases hft : db.find? (fun x => x.event == s.event && x.teamName == strTrim s.teamName) with
  | some x =>
      rw [register_dupteam_eq hashFn f m db s eok now aB cB hv ha hc hfa hfc
        (by rw [hft]; rfl)] at h
      exact absurd h (by simp)
  | none =>
  cases hu : uniqueViolation db (mkRecord s (hashFn aB) (hashFn cB) now) with
  | some fld =>
      rw [register_dupfield_eq hashFn f m db s eok now aB cB fld hv ha hc hfa hfc hft hu] at h
      exact absurd h (by simp)
  | none =>
  have hs := register_success_eq hashFn f m db s eok now aB cB hv ha hc hfa hfc hft hu
  cases eok with
  | false =>
      rw [hs] at h
      exact absurd h (by simp)
  | true =>
      rw [hs] at h
      simp only [if_pos rfl] at h
      have hr : r = mkRecord s (hashFn aB) (hashFn cB) now := by
        cases h; rfl
      refine ⟨hv, rfl, aB, cB, rfl, rfl, hr, ?_, ?_, ?_, ?_, ?_⟩ <;>
        first
          | rfl
          | exact hfa
          | exact hfc
          | exact hu
          | rw [hs, hr]

theorem find?_setConfirmed (db : Store) (rid : String) (r : Registration)
    (h : db.find? (fun x => x.registrationId == rid) = some r) :
    (setConfirmed db rid).find? (fun x => x.registrationId == rid)
      = some { r with isConfirmed := true } := by
  induction db with
  | nil => simp at h
  | cons hd tl ih =>
      by_cases hh : (hd.registrationId == rid) = true
      · rw [List.find?_cons_of_pos (p := fun x => x.registrationId == rid) (a := hd) tl hh] at h
        obtain rfl := Option.some.inj h
        unfold setConfirmed
        rw [if_pos hh]
        exact List.find?_cons_of_pos
          (p := fun x => x.registrationId == rid)
          (a := { hd with isConfirmed := true }) tl hh
      · rw [List.find?_cons_of_neg (p := fun x => x.registrationId == rid) (a := hd) tl hh] at h
        unfold setConfirmed
        rw [if_neg hh]
        rw [List.find?_cons_of_neg (p := fun x => x.registrationId == rid) (a := hd)
          (setConfirmed tl rid) hh]
        exact ih h

theorem setConfirmed_of_find?_none (db : Store) (rid : String)
    (h : db.find? (fun x => x.registrationId == rid) = none) :
    setConfirmed db rid = db := by
  induction db with
  | nil => rfl
  | cons hd tl ih =>
      by_cases hh : (hd.registrationId == rid) = true
      · rw [List.find?_cons_of_pos (p := fun x => x.registrationId == rid) (a := hd) tl hh] at h
        exact absurd h (by simp)
      · rw [List.find?_cons_of_neg (p := fun x => x.registrationId == rid) (a := hd) tl hh] at h
        unfold setConfirmed
        rw [if_neg hh, ih h]

/-- C3: the confirmation endpoint satisfies the tri-state contract: an
unknown id yields NotFound with the store untouched; a found, already
confirmed record yields AlreadyConfirmed with the store untouched; a
found, unconfirmed record yields success, with exactly the flag of that record
set, and a second call on the same id then yields AlreadyConfirmed and
leaves the store unchanged. -/
theorem confirm_tri_state (db : Store) (rid : String) :
    ((∀ x ∈ db, x.registrationId ≠ rid) → confirm db rid = (.notFound, db)) ∧
    (∀ r, db.find? (fun x => x.registrationId == rid) = some r →
        (r.isConfirmed = true → confirm db rid = (.alreadyConfirmed, db)) ∧
        (r.isConfirmed = false →
            confirm db rid = (.success, setConfirmed db rid) ∧
            (setConfirmed db rid).find? (fun x => x.registrationId == rid)
              = some { r with isConfirmed := true } ∧
            confirm (setConfirmed db rid) rid
              = (.alreadyConfirmed, setConfirmed db rid))) := by
  constructor
  · intro hnone
    have hfind : db.find? (fun x => x.registrationId == rid) = none :=
      List.find?_eq_none.mpr (fun x hx => by simp [hnone x hx])
    unfold confirm
    rw [hfind]
  · intro r hfind
    constructor
    · intro hconf
      simp [confirm, hfind, hconf]
    · intro hunconf
      have hfind2 := find?_setConfirmed db rid r hfind
      refine ⟨?_, hfind2, ?_⟩
      · simp [confirm, hfind, hunconf]
      · simp [confirm, hfind2]

/-- The confirmation contract exercised on a concrete store: the first
call on the unconfirmed record succeeds and the second call reports the
record already confirmed, leaving the store unchanged. -/
theorem confirm_tri_state_witness :
    confirm [regAlpha] "R1" = (.success, setConfirmed [regAlpha] "R1")
      ∧ confirm (setConfirmed [regAlpha] "R1") "R1"
          = (.alreadyConfirmed, setConfirmed [regAlpha] "R1") := by
  have h := ((confirm_tri_state [regAlpha] "R1").2 regAlpha (by decide)).2 (by decide)
  exact ⟨h.1, h.2.2⟩

theorem forall₂_sameExceptConfirmed_refl (db : Store) :
    List.Forall₂ sameExceptConfirmed db db := by
  induction db with
  | nil => exact .nil
  | cons hd tl ih => exact .cons (Or.inl rfl) ih

theorem setConfirmed_frame (db : Store) (rid : String) :
    List.Forall₂ sameExceptConfirmed db (setConfirmed db rid) := by
  induction db with
  | nil => exact .nil
  | cons hd tl ih =>
      by_cases hh : (hd.registrationId == rid) = true
      · unfold setConfirmed
        rw [if_pos hh]
        exact .cons (Or.inr rfl) (forall₂_sameExceptConfirmed_refl tl)
      · unfold setConfirmed
        rw [if_neg hh]
        exact .cons (Or.inl rfl) ih

/-- C9: frame effects of the core operations on the store: the
confirmation endpoint relates every stored record to its successor by
`sameExceptConfirmed` — every field other than the confirmation flag is
untouched and no record is added or removed — and the registration
endpoint either leaves the store unchanged or appends exactly one new
record, never mutating or deleting existing ones. -/
theorem core_frame_effects :
    (∀ (db : Store) (rid : String),
        List.Forall₂ sameExceptConfirmed db (confirm db rid).2) ∧
    (∀ (hashFn : List Nat → String) (f m : String → Bool)
        (db : Store) (s : Submission) (eok : Bool) (now : Nat),
        (register hashFn f m db s eok now).db = db ∨
        ∃ rr, (register hashFn f m db s eok now).db = db ++ [rr]) := by
  constructor
  · intro db rid
    unfold confirm
    cases hfind : db.find? (fun x => x.registrationId == rid) with
    | none => exact forall₂_sameExceptConfirmed_refl db
    | some r =>
        show List.Forall₂ sameExceptConfirmed db
          (if r.isConfirmed = true then (ConfirmResult.alreadyConfirmed, db)
           else (ConfirmResult.success, setConfirmed db rid)).2
        by_cases hc : r.isConfirmed = true
        · rw [if_pos hc]
          exact forall₂_sameExceptConfirmed_refl db
        · rw [if_neg hc]
          exact setConfirmed_frame db rid
  · intro hashFn f m db s eok now
    by_cases hv : validateSubmission f m s = true
    case neg =>
      rw [register_validation_fail hashFn f m db s eok now (by simpa using hv)]
      exact Or.inl rfl
    case pos =>
    cases ha : s.aadharImageFile with
    | none =>
        rcases register_missing_eq hashFn f m db s eok now (Or.inl ha) with he | he <;>
          · rw [he]; exact Or.inl rfl
    | some aB =>
    cases hc : s.collegeIdFile with
    | none =>
        rcases register_missing_eq hashFn f m db s eok now (Or.inr hc) with he | he <;>
          · rw [he]; exact Or.inl rfl
    | some cB =>
    by_cases hd : ((db.find? (fun x => x.aadharImageHash == hashFn aB)).isSome
        || (db.find? (fun x => x.collegeIdHash == hashFn cB)).isSome) = true
    case pos =>
      rw [register_dupdoc_eq hashFn f m db s eok now aB cB hv ha hc hd]
      exact Or.inl rfl
    case neg =>
    rw [Bool.or_eq_true, not_or, Option.not_isSome_iff_eq_none,
      Option.not_isSome_iff_eq_none] at hd
    obtain ⟨hfa, hfc⟩ := hd
    cases hft : db.find? (fun x => x.event == s.event && x.teamName == strTrim s.teamName) with
    | some x =>
        rw [register_dupteam_eq hashFn f m db s eok now aB cB hv ha hc hfa hfc
          (by rw [hft]; rfl)]
        exact Or.inl rfl
    | none =>
    cases hu : uniqueViolation db (mkRecord s (hashFn aB) (hashFn cB) now) with
    | some fld =>
        rw [register_dupfield_eq hashFn f m db s eok now aB cB fld hv ha hc hfa hfc hft hu]
        exact Or.inl rfl
    | none =>
        rw [register_success_eq hashFn f m db s eok now aB cB hv ha hc hfa hfc hft hu]
        exact Or.inr ⟨mkRecord s (hashFn aB) (hashFn cB) now, rfl⟩

theorem uniqueViolation_none_elim (db : Store) (r : Registration)
    (h : uniqueViolation db r = none) :
    ∀ x ∈ db, x.registrationId ≠ r.registrationId ∧ x.teamName ≠ r.teamName ∧
      x.email ≠ r.email ∧ x.mobile ≠ r.mobile ∧ x.aadhar ≠ r.aadhar := by
  intro x hx
  unfold uniqueViolation at h
  split_ifs at h with h1 h2 h3 h4 h5
  refine ⟨?_, ?_, ?_, ?_, ?_⟩ <;> intro heq
  · exact h1 (List.any_eq_true.mpr ⟨x, hx, by simp [heq]⟩)
  · exact h2 (List.any_eq_true.mpr ⟨x, hx, by simp [heq]⟩)
  · exact h3 (List.any_eq_true.mpr ⟨x, hx, by simp [heq]⟩)
  · exact h4 (List.any_eq_true.mpr ⟨x, hx, by simp [heq]⟩)
  · exact h5 (List.any_eq_true.mpr ⟨x, hx, by simp [heq]⟩)

theorem uniqueViolation_email (db : Store) (r : Registration)
    (h1 : ∀ x ∈ db, x.registrationId ≠ r.registrationId)
    (h2 : ∀ x ∈ db, x.teamName ≠ r.teamName)
    (h3 : ∃ x ∈ db, x.email = r.email) :
    uniqueViolation db r = some "email" := by
  obtain ⟨y, hy, hey⟩ := h3
  have hb1 : db.any (fun x => x.registrationId == r.registrationId) = false := by
    rw [← Bool.not_eq_true, List.any_eq_true]
    rintro ⟨x, hx, hb⟩
    exact h1 x hx (by simpa using hb)
  have hb2 : db.any (fun x => x.teamName == r.teamName) = false := by
    rw [← Bool.not_eq_true, List.any_eq_true]
    rintro ⟨x, hx, hb⟩
    exact h2 x hx (by simpa using hb)
  have hb3 : db.any (fun x => x.email == r.email) = true :=
    List.any_eq_true.mpr ⟨y, hy, by simp [hey]⟩
  simp [uniqueViolation, hb1, hb2, hb3]

theorem register_conflict_reject (hashFn : List Nat → String) (f m : String → Bool)
    (db : Store) (s : Submission) (eok : Bool) (now : Nat) (aB cB : List Nat)
    (ha : s.aadharImageFile = some aB) (hc : s.collegeIdFile = some cB)
    (hconf : ∃ x ∈ db, conflictsWith s (hashFn aB) (hashFn cB) x) :
    ∃ e, register hashFn f m db s eok now = ⟨.error e, db, false⟩ := by
  by_cases hv : validateSubmission f m s = true
  case neg =>
    exact ⟨_, register_validation_fail hashFn f m db s eok now (by simpa using hv)⟩
  case pos =>
  by_cases hd : ((db.find? (fun x => x.aadharImageHash == hashFn aB)).isSome
      || (db.find? (fun x => x.collegeIdHash == hashFn cB)).isSome) = true
  case pos =>
    exact ⟨_, register_dupdoc_eq hashFn f m db s eok now aB cB hv ha hc hd⟩
  case neg =>
  rw [Bool.or_eq_true, not_or, Option.not_isSome_iff_eq_none,
    Option.not_isSome_iff_eq_none] at hd
  obtain ⟨hfa, hfc⟩ := hd
  cases hft : db.find? (fun x => x.event == s.event && x.teamName == strTrim s.teamName) with
  | some x =>
      exact ⟨_, register_dupteam_eq hashFn f m db s eok now aB cB hv ha hc hfa hfc
        (by rw [hft]; rfl)⟩
  | none =>
  cases hu : uniqueViolation db (mkRecord s (hashFn aB) (hashFn cB) now) with
  | some fld =>
      exact ⟨_, register_dupfield_eq hashFn f m db s eok now aB cB fld hv ha hc hfa hfc hft hu⟩
  | none =>
      exfalso
      obtain ⟨x, hx, hcf⟩ := hconf
      have hfa2 := List.find?_eq_none.mp hfa x hx
      have hfc2 := List.find?_eq_none.mp hfc x hx
      have hft2 := List.find?_eq_none.mp hft x hx
      have hu2 := uniqueViolation_none_elim db _ hu x hx
      rcases hcf with h1 | h1 | h1 | h1 | h1 | h1 | h1 | h1
      · exact hfa2 (by simp [h1])
      · exact hfc2 (by simp [h1])
      · exact hft2 (by simp [h1.1, h1.2])
      · exact hu2.1 h1
      · exact hu2.2.1 h1
      · exact hu2.2.2.1 h1
      · exact hu2.2.2.2.1 h1
      · exact hu2.2.2.2.2 h1

/-- C4: when a submission conflicts with any stored record — a digest hit
in the corresponding hash field, an `(event, teamName)` hit, or a hit on
any globally-unique field — the request is rejected with some error, the
store after the request equals the store before it, and no confirmation
email is sent. -/
theorem conflict_rejected_atomically (hashFn : List Nat → String) (f m : String → Bool)
    (db : Store) (s : Submission) (eok : Bool) (now : Nat) (aB cB : List Nat)
    (ha : s.aadharImageFile = some aB) (hc : s.collegeIdFile = some cB)
    (hconf : ∃ x ∈ db, conflictsWith s (hashFn aB) (hashFn cB) x) :
    ∃ e, register hashFn f m db s eok now = ⟨.error e, db, false⟩ :=
  register_conflict_reject hashFn f m db s eok now aB cB ha hc hconf

/-- C4 exercised concretely: a submission reusing a stored email address
is rejected and the store is unchanged with no email sent. -/
theorem conflict_rejected_atomically_witness :
    ∃ e, register hashMock emailStub matchesStrictMobile [regAlpha] c4sub true 4
        = ⟨.error e, [regAlpha], false⟩ :=
  conflict_rejected_atomically hashMock emailStub matchesStrictMobile [regAlpha] c4sub true 4
    [7] [8] rfl rfl (by decide)

/-- C5: an accepted registration differs from every prior stored record on
each of the five globally-unique fields, and a submission reusing a stored
team name is rejected with the store unchanged even when its event differs
from the event of the stored record — global teamName uniqueness prevails over
the composite `(event, teamName)` constraint. -/
theorem teamname_global_uniqueness (hashFn : List Nat → String) (f m : String → Bool)
    (db : Store) (s : Submission) (eok : Bool) (now : Nat) :
    (∀ r, (register hashFn f m db s eok now).outcome = .ok r →
        ∀ x ∈ db, x.registrationId ≠ r.registrationId ∧ x.teamName ≠ r.teamName ∧
          x.email ≠ r.email ∧ x.mobile ≠ r.mobile ∧ x.aadhar ≠ r.aadhar) ∧
    (∀ aB cB, s.aadharImageFile = some aB → s.collegeIdFile = some cB →
        (∃ x ∈ db, x.teamName = strTrim s.teamName ∧ x.event ≠ s.event) →
        ∃ e, register hashFn f m db s eok now = ⟨.error e, db, false⟩) := by
  constructor
  · intro r hok x hx
    obtain ⟨hv, heok, aB, cB, ha, hc, hr, hfa, hfc, hft, hu, hdb⟩ :=
      register_ok_elim hashFn f m db s eok now r hok
    have hx2 := uniqueViolation_none_elim db _ hu x hx
    rw [hr]
    exact hx2
  · intro aB cB ha hc hex
    obtain ⟨x, hx, ht, _⟩ := hex
    exact register_conflict_reject hashFn f m db s eok now aB cB ha hc
      ⟨x, hx, Or.inr (Or.inr (Or.inr (Or.inr (Or.inl ht))))⟩

/-- C5 exercised concretely: a fresh submission is accepted with all five
unique fields distinct from the stored record, and a submission reusing
the stored team name under a different event is rejected with the store
unchanged. -/
theorem teamname_global_uniqueness_witness :
    (∀ x ∈ [regAlpha],
        x.registrationId ≠ (mkRecord c5sub "3" "4" 5).registrationId ∧
        x.teamName ≠ (mkRecord c5sub "3" "4" 5).teamName ∧
        x.email ≠ (mkRecord c5sub "3" "4" 5).email ∧
        x.mobile ≠ (mkRecord c5sub "3" "4" 5).mobile ∧
        x.aadhar ≠ (mkRecord c5sub "3" "4" 5).aadhar) ∧
    (∃ e, register hashMock emailStub matchesStrictMobile [regAlpha] c5subT true 6
        = ⟨.error e, [regAlpha], false⟩) := by
  constructor
  · exact (teamname_global_uniqueness hashMock emailStub matchesStrictMobile
      [regAlpha] c5sub true 5).1 (mkRecord c5sub "3" "4" 5) (by decide)
  · exact (teamname_global_uniqueness hashMock emailStub matchesStrictMobile
      [regAlpha] c5subT true 6).2 [5] [6] rfl rfl (by decide)

/-- C2: the document hasher is a function of the uploaded bytes, so when a
first submission is accepted and a second valid submission uploads an
aadhar image with byte-identical content, the second request is rejected
with the DuplicateDocument error and the store is unchanged, no email
sent. -/
theorem byte_identical_aadhar_rejected (hashFn : List Nat → String) (f m : String → Bool)
    (db0 : Store) (s1 s2 : Submission) (eok1 eok2 : Bool) (now1 now2 : Nat)
    (r1 : Registration) (aB cB2 : List Nat)
    (h1 : (register hashFn f m db0 s1 eok1 now1).outcome = .ok r1)
    (ha1 : s1.aadharImageFile = some aB)
    (ha2 : s2.aadharImageFile = some aB)
    (hc2 : s2.collegeIdFile = some cB2)
    (hv2 : validateSubmission f m s2 = true) :
    register hashFn f m (register hashFn f m db0 s1 eok1 now1).db s2 eok2 now2
      = ⟨.error .duplicateDocument, (register hashFn f m db0 s1 eok1 now1).db, false⟩ := by
  obtain ⟨hv1, heok, aB2, cB1, ha1b, hc1b, hr1, hfa, hfc, hft, hu, hdb⟩ :=
    register_ok_elim hashFn f m db0 s1 eok1 now1 r1 h1
  rw [ha1] at ha1b
  have haB : aB = aB2 := Option.some.inj ha1b
  subst haB
  apply register_dupdoc_eq hashFn f m _ s2 eok2 now2 aB cB2 hv2 ha2 hc2
  have hr1mem : r1 ∈ (register hashFn f m db0 s1 eok1 now1).db := by
    rw [hdb]
    exact List.mem_append_right _ (by simp)
  have hsome : (((register hashFn f m db0 s1 eok1 now1).db).find?
      (fun x => x.aadharImageHash == hashFn aB)).isSome = true := by
    rw [List.find?_isSome]
    refine ⟨r1, hr1mem, ?_⟩
    rw [hr1]
    exact beq_self_eq_true (hashFn aB)
  simp [hsome]

/-- C2 exercised concretely: after accepting `subBeta`, the submission
`c2sub` carrying byte-identical aadhar-image content is rejected with
DuplicateDocument and the store is unchanged. -/
theorem byte_identical_aadhar_rejected_witness :
    register hashMock emailStub matchesStrictMobile
        (register hashMock emailStub matchesStrictMobile [] subBeta true 1).db c2sub true 2
      = ⟨.error .duplicateDocument,
         (register hashMock emailStub matchesStrictMobile [] subBeta true 1).db, false⟩ :=
  byte_identical_aadhar_rejected hashMock emailStub matchesStrictMobile [] subBeta c2sub
    true true 1 2 (mkRecord subBeta "3" "4" 1) [3] [7] (by decide) rfl rfl rfl (by decide)

/-- C6: when a submission would be accepted but the confirmation email
fails, the inserted record remains in the store (persistence is not
rolled back) and the response is the transport error mapped to HTTP 500,
not a success. -/
theorem email_failure_preserves_record (hashFn : List Nat → String) (f m : String → Bool)
    (db : Store) (s : Submission) (now : Nat) (r : Registration)
    (h : (register hashFn f m db s true now).outcome = .ok r) :
    (register hashFn f m db s false now).outcome = .error .transportError ∧
    (register hashFn f m db s false now).db = db ++ [r] ∧
    r ∈ (register hashFn f m db s false now).db ∧
    httpStatus (register hashFn f m db s false now).outcome = 500 := by
  obtain ⟨hv, heok, aB, cB, ha, hc, hr, hfa, hfc, hft, hu, hdb⟩ :=
    register_ok_elim hashFn f m db s true now r h
  have hs := register_success_eq hashFn f m db s false now aB cB hv ha hc hfa hfc hft hu
  rw [hs, hr]
  refine ⟨by simp, by simp, by simp, by simp [httpStatus]⟩

/-- C6 exercised concretely: with the transport failing, the record of
`c6sub` is persisted and the response is the 500 transport error. -/
theorem email_failure_preserves_record_witness :
    (register hashMock emailStub matchesStrictMobile [] c6sub false 3).outcome
        = .error .transportError ∧
    (register hashMock emailStub matchesStrictMobile [] c6sub false 3).db
        = [] ++ [mkRecord c6sub "1" "2" 3] ∧
    mkRecord c6sub "1" "2" 3 ∈ (register hashMock emailStub matchesStrictMobile [] c6sub false 3).db ∧
    httpStatus (register hashMock emailStub matchesStrictMobile [] c6sub false 3).outcome = 500 :=
  email_failure_preserves_record hashMock emailStub matchesStrictMobile [] c6sub 3
    (mkRecord c6sub "1" "2" 3) (by decide)

/-- C10: the stored email is the normalized (lowercased) address, so after
a first submission is accepted, a second valid submission whose email
normalizes to the same address — e.g. differing only in letter case — is
rejected by the email unique index with the store unchanged, provided its
digests, team name and registration id are fresh. -/
theorem email_case_insensitive_dup (hashFn : List Nat → String) (f m : String → Bool)
    (db0 db1 : Store) (s1 s2 : Submission) (eok1 eok2 : Bool) (now1 now2 : Nat)
    (r1 : Registration) (aB2 cB2 : List Nat)
    (h1 : (register hashFn f m db0 s1 eok1 now1).outcome = .ok r1)
    (hdb1 : db1 = (register hashFn f m db0 s1 eok1 now1).db)
    (hv2 : validateSubmission f m s2 = true)
    (ha2 : s2.aadharImageFile = some aB2) (hc2 : s2.collegeIdFile = some cB2)
    (hem : normalizeEmail s2.email = normalizeEmail s1.email)
    (hA : ∀ x ∈ db1, x.aadharImageHash ≠ hashFn aB2)
    (hC : ∀ x ∈ db1, x.collegeIdHash ≠ hashFn cB2)
    (hT : ∀ x ∈ db1, x.teamName ≠ strTrim s2.teamName)
    (hR : ∀ x ∈ db1, x.registrationId ≠ s2.registrationId) :
    register hashFn f m db1 s2 eok2 now2 = ⟨.error (.duplicateField "email"), db1, false⟩ := by
  obtain ⟨hv1, heok, aB1, cB1, ha1, hc1, hr1, _, _, _, _, hdb⟩ :=
    register_ok_elim hashFn f m db0 s1 eok1 now1 r1 h1
  have hfa : db1.find? (fun x => x.aadharImageHash == hashFn aB2) = none :=
    List.find?_eq_none.mpr (fun x hx => by simp [hA x hx])
  have hfc : db1.find? (fun x => x.collegeIdHash == hashFn cB2) = none :=
    List.find?_eq_none.mpr (fun x hx => by simp [hC x hx])
  have hft : db1.find? (fun x => x.event == s2.event && x.teamName == strTrim s2.teamName)
      = none :=
    List.find?_eq_none.mpr (fun x hx => by simp [hT x hx])
  have hr1mem : r1 ∈ db1 := by
    rw [hdb1, hdb]
    exact List.mem_append_right _ (by simp)
  have hu : uniqueViolation db1 (mkRecord s2 (hashFn aB2) (hashFn cB2) now2) = some "email" := by
    apply uniqueViolation_email
    · intro x hx
      exact hR x hx
    · intro x hx
      exact hT x hx
    · refine ⟨r1, hr1mem, ?_⟩
      rw [hr1]
      show normalizeEmail s1.email = normalizeEmail s2.email
      exact hem.symm
  exact register_dupfield_eq hashFn f m db1 s2 eok2 now2 aB2 cB2 "email" hv2 ha2 hc2 hfa hfc hft hu

/-- C10 exercised concretely: after accepting `c10sub1` with mixed-case
email, the submission `c10sub2` whose email differs only in case is
rejected by the email unique index with the store unchanged. -/
theorem email_case_insensitive_dup_witness :
    register hashMock emailStub matchesStrictMobile
        (register hashMock emailStub matchesStrictMobile [] c10sub1 true 1).db c10sub2 true 2
      = ⟨.error (.duplicateField "email"),
         (register hashMock emailStub matchesStrictMobile [] c10sub1 true 1).db, false⟩ :=
  email_case_insensitive_dup hashMock emailStub matchesStrictMobile []
    ((register hashMock emailStub matchesStrictMobile [] c10sub1 true 1).db) c10sub1 c10sub2
    true true 1 2 (mkRecord c10sub1 "1" "2" 1) [3] [4] (by decide) rfl (by decide) rfl rfl
    (by decide) (by decide) (by decide) (by decide) (by decide)

/-- C1 counterexample: a submission whose aadhar-image digest equals a
collegeIdHash of a prior record (and matches no prior aadharImageHash) is
accepted and inserted — the digests are not cross-checked against the
other hash column, contradicting the claim that such a submission is
rejected with a DuplicateDocument error and nothing inserted. -/
theorem cross_hash_not_checked :
    c1prior.collegeIdHash = hashMock [5] ∧
    c1sub.aadharImageFile = some [5] ∧
    [c1prior].all (fun x => !(x.aadharImageHash == hashMock [5])) = true ∧
    (register hashMock emailStub matchesStrictMobile [c1prior] c1sub true 8).outcome
      = .ok (mkRecord c1sub (hashMock [5]) (hashMock [6]) 8) ∧
    (register hashMock emailStub matchesStrictMobile [c1prior] c1sub true 8).db
      = [c1prior, mkRecord c1sub (hashMock [5]) (hashMock [6]) 8] := by
  decide

/-- C1 amended: the duplicate-document check is same-field only — a valid
submission is rejected with DuplicateDocument, store unchanged and no
email sent, precisely when its aadhar-image digest matches a prior
aadharImageHash field of a prior record or its college-id digest matches the
collegeIdHash field of a prior record; when neither same-field match exists the
outcome is never DuplicateDocument. -/
theorem same_field_hash_duplicate_check (hashFn : List Nat → String) (f m : String → Bool)
    (db : Store) (s : Submission) (eok : Bool) (now : Nat) (aB cB : List Nat)
    (hv : validateSubmission f m s = true)
    (ha : s.aadharImageFile = some aB) (hc : s.collegeIdFile = some cB) :
    (((∃ x ∈ db, x.aadharImageHash = hashFn aB) ∨ (∃ x ∈ db, x.collegeIdHash = hashFn cB)) →
        register hashFn f m db s eok now = ⟨.error .duplicateDocument, db, false⟩) ∧
    ((∀ x ∈ db, x.aadharImageHash ≠ hashFn aB) → (∀ x ∈ db, x.collegeIdHash ≠ hashFn cB) →
        (register hashFn f m db s eok now).outcome ≠ .error .duplicateDocument) := by
  constructor
  · intro hex
    apply register_dupdoc_eq hashFn f m db s eok now aB cB hv ha hc
    rcases hex with ⟨x, hx, he⟩ | ⟨x, hx, he⟩
    · have hsome : (db.find? (fun y => y.aadharImageHash == hashFn aB)).isSome = true :=
        List.find?_isSome.mpr ⟨x, hx, by simp [he]⟩
      simp [hsome]
    · have hsome : (db.find? (fun y => y.collegeIdHash == hashFn cB)).isSome = true :=
        List.find?_isSome.mpr ⟨x, hx, by simp [he]⟩
      simp [hsome]
  · intro hna hnc
    have hfa : db.find? (fun x => x.aadharImageHash == hashFn aB) = none :=
      List.find?_eq_none.mpr (fun x hx => by simp [hna x hx])
    have hfc : db.find? (fun x => x.collegeIdHash == hashFn cB) = none :=
      List.find?_eq_none.mpr (fun x hx => by simp [hnc x hx])
    cases hft : db.find? (fun x => x.event == s.event && x.teamName == strTrim s.teamName) with
    | some x =>
        rw [register_dupteam_eq hashFn f m db s eok now aB cB hv ha hc hfa hfc
          (by rw [hft]; rfl)]
        simp
    | none =>
    cases hu : uniqueViolation db (mkRecord s (hashFn aB) (hashFn cB) now) with
    | some fld =>
        rw [register_dupfield_eq hashFn f m db s eok now aB cB fld hv ha hc hfa hfc hft hu]
        simp
    | none =>
        rw [register_success_eq hashFn f m db s eok now aB cB hv ha hc hfa hfc hft hu]
        cases eok <;> simp

/-- C1 amended exercised concretely: a submission whose aadhar-image
digest matches a stored aadharImageHash is rejected with
DuplicateDocument, the store unchanged. -/
theorem same_field_hash_duplicate_check_witness :
    register hashMock emailStub matchesStrictMobile [regAlpha] c1wsub true 9
      = ⟨.error .duplicateDocument, [regAlpha], false⟩ :=
  (same_field_hash_duplicate_check hashMock emailStub matchesStrictMobile [regAlpha] c1wsub
      true 9 [1] [6] (by decide) rfl rfl).1 (Or.inl (by decide))

/-- C7 counterexample: an aadhar of twelve non-digit characters passes the
validation chain and the submission is accepted — the validator checks
only `isLength` 12, not digits — contradicting the claim that a
12-character aadhar containing a non-digit is rejected. -/
theorem aadhar_non_digit_accepted :
    c7sub.aadhar.length = 12 ∧
    c7sub.aadhar.data.all Char.isDigit = false ∧
    validateSubmission emailStub matchesStrictMobile c7sub = true ∧
    (register hashMock emailStub matchesStrictMobile [] c7sub true 2).outcome
      = .ok (mkRecord c7sub (hashMock [1]) (hashMock [2]) 2) := by
  decide

/-- C7 amended: the aadhar validator enforces exactly the length bound —
every submission passing validation has an aadhar of exactly 12
characters (so 11- or 13-character values are rejected), but digit
content is not enforced. -/
theorem aadhar_exact_length_check (f m : String → Bool) (s : Submission)
    (h : validateSubmission f m s = true) : s.aadhar.length = 12 := by
  unfold validateSubmission at h
  simp only [Bool.and_eq_true, beq_iff_eq] at h
  exact h.1.1.1.1.1.1.1.1.1.2

/-- C7 amended exercised concretely: the accepted submission `subBeta`
has a 12-character aadhar. -/
theorem aadhar_exact_length_check_witness : subBeta.aadhar.length = 12 :=
  aadhar_exact_length_check emailStub matchesStrictMobile subBeta (by decide)

/-- C8 counterexample: in the disk-backed variant the mobile check is the
en-IN pattern, which accepts the `+91`-prefixed form of a valid Indian
number even though that string does not match the strict pattern
`[6-9]` followed by nine digits; the submission passes validation and is
accepted, contradicting the claim that every non-matching string is
rejected. -/
theorem mobile_en_in_accepts_prefixed :
    matchesStrictMobile c8sub.mobile = false ∧
    matchesStrictMobile "9876543210" = true ∧
    validateSubmission emailStub matchesEnINMobile c8sub = true ∧
    (register hashMock emailStub matchesEnINMobile [] c8sub true 3).outcome
      = .ok (mkRecord c8sub (hashMock [1]) (hashMock [2]) 3) := by
  decide

/-- C8 amended: in the memory-storage variant the mobile field is accepted
only if it matches the strict pattern `[6-9]` followed by exactly nine
digits; the en-IN check of the disk-backed variant accepts every strict match
(and additionally optional `+91`, `91` or `0` prefixed forms). -/
theorem mobile_validator_characterization :
    (∀ (f : String → Bool) (s : Submission),
        validateSubmission f matchesStrictMobile s = true →
        matchesStrictMobile s.mobile = true) ∧
    (∀ str : String, matchesStrictMobile str = true → matchesEnINMobile str = true) := by
  constructor
  · intro f s h
    unfold validateSubmission at h
    simp only [Bool.and_eq_true] at h
    exact h.1.1.1.1.1.1.1.1.1.1.1.1.2
  · intro str h
    have he : enINCore str.data = true := h
    unfold matchesEnINMobile
    rw [he]
    rfl

/-- C8 amended exercised concretely on the mobile number of `subBeta`. -/
theorem mobile_validator_characterization_witness :
    matchesStrictMobile subBeta.mobile = true ∧ matchesEnINMobile "9000000002" = true := by
  constructor
  · exact mobile_validator_characterization.1 emailStub subBeta (by decide)
  · exact mobile_validator_characterization.2 "9000000002" (by decide)
